import Mathlib

/-!
Shallow embedding of the `android-intent` crate: a fallible builder chain
over a foreign (JNI) message object, with an explicit trace of foreign calls
issued against a mock foreign environment, and an explicit panic outcome for
the `unwrap()` sites of the source.
-/

set_option maxRecDepth 4000

namespace AndroidIntent

/-- Errors of the foreign-call layer (the `jni::errors::Error` values the
source can store or propagate). -/
inductive Error
  | javaThrown (what : String)
  | nullPtr (what : String)
  | wrongJValueType
  | envErr (code : Nat)
deriving DecidableEq, Repr

/-- A `JValueOwned` of the foreign layer: either a 32-bit integer or an
object reference (`none` is the null reference). -/
inductive JVal
  | int (v : Int)
  | obj (o : Option Nat)
deriving DecidableEq, Repr

/-- One foreign call issued against the environment, as recorded in the
instrumentation trace. -/
inductive FCall
  | findClass (name : String)
  | newString (s : String)
  | getStaticField (cls : Nat) (field ty : String)
  | newObject (cls : Nat) (sig : String) (args : List JVal)
  | callMethod (obj : Nat) (m sig : String) (args : List JVal)
  | callStaticMethod (cls : Nat) (m sig : String) (args : List JVal)
  | getField (obj : Nat) (f ty : String)
deriving DecidableEq, Repr

/-- The mock foreign environment: one typed response channel per JNI entry
point used by the source (`find_class`, `new_string`, `get_static_field`,
`new_object`, `call_method`, `call_static_method`, `get_field`). Channels
whose jni return type is `JObject` or `JClass` answer with an object id;
channels returning `JValueOwned` answer with a `JVal`. -/
structure Env where
  findClass : String → Except Error Nat
  newString : String → Except Error Nat
  getStaticField : Nat → String → String → Except Error JVal
  newObject : Nat → String → List JVal → Except Error Nat
  callMethod : Nat → String → String → List JVal → Except Error JVal
  callStaticMethod : Nat → String → String → List JVal → Except Error JVal
  getField : Nat → String → String → Except Error JVal

/-- Outcome of running a fragment of fallible source code: normal value,
propagated error (`?`), or a panic (`unwrap()` on an error). -/
inductive Out (α : Type)
  | ok (a : α)
  | err (e : Error)
  | panic
deriving DecidableEq, Repr

/-- Outcome of a whole function call: normal return or panic/abort. -/
inductive Ran (α : Type)
  | ret (a : α)
  | panic
deriving DecidableEq, Repr

/-- Sequencing of traced fallible fragments: errors and panics short-circuit,
traces concatenate. Models the `?` operator with call instrumentation. -/
def obind {α β : Type} : Out α × List FCall → (α → Out β × List FCall) → Out β × List FCall
  | (.ok a, t), k => ((k a).1, t ++ (k a).2)
  | (.err e, t), _ => (.err e, t)
  | (.panic, t), _ => (.panic, t)

/-- Lift an environment response into an outcome. -/
def ofExcept {α : Type} : Except Error α → Out α
  | .ok a => .ok a
  | .error e => .err e

/-- Models `env.find_class(name)`. -/
def jniFindClass (env : Env) (name : String) : Out Nat × List FCall :=
  (ofExcept (env.findClass name), [.findClass name])

/-- Models `env.new_string(s)`. -/
def jniNewString (env : Env) (s : String) : Out Nat × List FCall :=
  (ofExcept (env.newString s), [.newString s])

/-- Models `env.call_method(obj, m, sig, args)`: the jni crate rejects a null
receiver with `NullPtr` before any foreign interaction. -/
def jniCallMethod (env : Env) (obj : Option Nat) (m sig : String) (args : List JVal) :
    Out JVal × List FCall :=
  match obj with
  | none => (.err (.nullPtr "get_object_class"), [])
  | some o => (ofExcept (env.callMethod o m sig args), [.callMethod o m sig args])

/-- Models `env.get_field(obj, f, ty)`: null receiver gives `NullPtr` with no
foreign interaction, as in the jni crate. -/
def jniGetField (env : Env) (obj : Option Nat) (f ty : String) :
    Out JVal × List FCall :=
  match obj with
  | none => (.err (.nullPtr "get_object_class"), [])
  | some o => (ofExcept (env.getField o f ty), [.getField o f ty])

/-- The private payload of a builder: the current foreign message handle
(the `AttachGuard` of the source is the ambient mock `Env`). -/
structure Inner where
  object : Option Nat
deriving DecidableEq, Repr

/-- A messaging object you can use to request an action from another android
app component; `inner` is the fallible chain state. -/
structure Intent where
  inner : Except Error Inner

instance : DecidableEq Intent := fun a b => by
  cases a with
  | mk ia =>
    cases b with
    | mk ib =>
      cases ia <;> cases ib
      case error.error e₁ e₂ =>
        exact if h : e₁ = e₂ then .isTrue (by simp [h]) else .isFalse (by simp [h])
      case error.ok => exact .isFalse (by simp)
      case ok.error => exact .isFalse (by simp)
      case ok.ok i₁ i₂ =>
        exact if h : i₁ = i₂ then .isTrue (by simp [h]) else .isFalse (by simp [h])

/-- Models `Intent::from_object`. -/
def Intent.from_object (object : Option Nat) : Intent :=
  { inner := .ok { object := object } }

/-- Models `Intent::and_then`: run `f` only when the chain is still `Ok`; an
already-failed chain is returned unchanged with an empty trace. A panic in
`f` aborts the whole call. -/
def Intent.and_then (i : Intent) (f : Inner → Out Inner × List FCall) :
    Ran Intent × List FCall :=
  match i.inner with
  | .error e => (.ret { inner := .error e }, [])
  | .ok inner =>
    match f inner with
    | (.ok inner', t) => (.ret { inner := .ok inner' }, t)
    | (.err e, t) => (.ret { inner := .error e }, t)
    | (.panic, t) => (.panic, t)

/-- Models `Intent::from_fn`: store the outcome of the construction closure as the
initial chain state. -/
def Intent.from_fn (r : Out Inner × List FCall) : Ran Intent × List FCall :=
  match r with
  | (.ok inner, t) => (.ret { inner := .ok inner }, t)
  | (.err e, t) => (.ret { inner := .error e }, t)
  | (.panic, t) => (.panic, t)

/-- Models `Intent::get_static_field_val`: find the `android/content/Intent` class
and read one of its static fields. -/
def get_static_field_val (env : Env) (field_name field_type : String) :
    Out JVal × List FCall :=
  obind (jniFindClass env "android/content/Intent") (fun intent_class =>
    (ofExcept (env.getStaticField intent_class field_name field_type),
     [.getStaticField intent_class field_name field_type]))

/-- Models `Intent::new`: resolve the action constant, find the class, construct the
message object. -/
def Intent.new (env : Env) (action : String) : Ran Intent × List FCall :=
  Intent.from_fn
    (obind (get_static_field_val env action "Ljava/lang/String;") (fun action_view =>
     obind (jniFindClass env "android/content/Intent") (fun intent_class =>
     obind ((ofExcept (env.newObject intent_class "(Ljava/lang/String;)V" [action_view]),
             [.newObject intent_class "(Ljava/lang/String;)V" [action_view]]))
       (fun intent => (.ok { object := some intent }, [])))))

/-- Models `Intent::new_with_uri`: build the URI string, find `android/net/Uri`,
parse, then resolve the action constant and construct the message object. -/
def Intent.new_with_uri (env : Env) (action uri : String) : Ran Intent × List FCall :=
  Intent.from_fn
    (obind (jniNewString env uri) (fun url_string =>
     obind (jniFindClass env "android/net/Uri") (fun uri_class =>
     obind ((ofExcept (env.callStaticMethod uri_class "parse"
               "(Ljava/lang/String;)Landroid/net/Uri;" [.obj (some url_string)]),
             [.callStaticMethod uri_class "parse"
               "(Ljava/lang/String;)Landroid/net/Uri;" [.obj (some url_string)]]))
       (fun uriv =>
     obind (get_static_field_val env action "Ljava/lang/String;") (fun action_view =>
     obind (jniFindClass env "android/content/Intent") (fun intent_class =>
     obind ((ofExcept (env.newObject intent_class "(Ljava/lang/String;Landroid/net/Uri;)V"
               [action_view, uriv]),
             [.newObject intent_class "(Ljava/lang/String;Landroid/net/Uri;)V"
               [action_view, uriv]]))
       (fun intent => (.ok { object := some intent }, []))))))))

/-- Models `Intent::with_extra`: attach one string key/value pair via `putExtra`. -/
def Intent.with_extra (env : Env) (key value : String) (i : Intent) :
    Ran Intent × List FCall :=
  i.and_then (fun inner =>
    obind (jniNewString env key) (fun k =>
    obind (jniNewString env value) (fun v =>
    obind (jniCallMethod env inner.object "putExtra"
            "(Ljava/lang/String;Ljava/lang/String;)Landroid/content/Intent;"
            [.obj (some k), .obj (some v)])
      (fun _ => (.ok inner, [])))))

/-- Models `Intent::with_type`: set the MIME type via `setType`. -/
def Intent.with_type (env : Env) (type_name : String) (i : Intent) :
    Ran Intent × List FCall :=
  i.and_then (fun inner =>
    obind (jniNewString env type_name) (fun jstring =>
    obind (jniCallMethod env inner.object "setType"
            "(Ljava/lang/String;)Landroid/content/Intent;" [.obj (some jstring)])
      (fun _ => (.ok inner, []))))

/-- Models `Intent::into_chooser_with_title`: build the optional title, call the
static `createChooser`, and replace the chain's handle with the wrapper
(`try_into` fails with `WrongJValueType` on a non-object result). -/
def Intent.into_chooser_with_title (env : Env) (title : Option String) (i : Intent) :
    Ran Intent × List FCall :=
  i.and_then (fun inner =>
    obind (match title with
           | some t =>
             (ofExcept (Except.map (fun n => JVal.obj (some n)) (env.newString t)),
              [.newString t])
           | none => (.ok (JVal.obj none), []))
      (fun title_value =>
    obind (jniFindClass env "android/content/Intent") (fun intent_class =>
    obind ((ofExcept (env.callStaticMethod intent_class "createChooser"
             "(Landroid/content/Intent;Ljava/lang/CharSequence;)Landroid/content/Intent;"
             [.obj inner.object, title_value]),
            [.callStaticMethod intent_class "createChooser"
             "(Landroid/content/Intent;Ljava/lang/CharSequence;)Landroid/content/Intent;"
             [.obj inner.object, title_value]]))
      (fun intent =>
      match intent with
      | .obj o => (.ok { inner with object := o }, [])
      | .int _ => (.err .wrongJValueType, [])))))

/-- Models `Intent::into_chooser`: chooser wrapper with no title. -/
def Intent.into_chooser (env : Env) (i : Intent) : Ran Intent × List FCall :=
  i.into_chooser_with_title env (none : Option String)

/-- The `bitflags` set of the crate: a u32 mask whose only defined flag is
`GRANT_READ_URI_PERMISSION` (bit 0). -/
structure Flags where
  bits : Nat
deriving DecidableEq, Repr

/-- Models `Flags::GRANT_READ_URI_PERMISSION`. -/
def Flags.GRANT_READ_URI_PERMISSION : Flags := { bits := 1 }

/-- Models `Flags::empty()`. -/
def Flags.empty : Flags := { bits := 0 }

/-- Models `Flags::from_bits_retain`: keep all bits of the u32, defined or not. -/
def Flags.from_bits_retain (b : Nat) : Flags := { bits := b % 2 ^ 32 }

/-- Models `Flags::iter_names`: yield the names of the contained defined flags only;
bits without a defined flag name are not yielded. -/
def Flags.iter_names (f : Flags) : List String :=
  if f.bits &&& 1 = 1 then ["GRANT_READ_URI_PERMISSION"] else []

/-- The resolution loop of `Intent::add_flags`: for each yielded flag name,
read the static `FLAG_<name>` int constant (`.i().unwrap()` panics on a
non-int response) and OR it into the accumulator. -/
def resolveFlags (env : Env) (names : List String) (acc : Int) :
    Out Int × List FCall :=
  match names with
  | [] => (.ok acc, [])
  | n :: rest =>
    obind (get_static_field_val env ("FLAG_" ++ n) "I") (fun flag_val =>
      match flag_val with
      | .int jflag_val => resolveFlags env rest (Int.lor acc jflag_val)
      | .obj _ => (.panic, []))

/-- Models `Intent::add_flags`: fully build the OR-accumulated mask from the named
flags, then issue the single `addFlags` mutation call. -/
def Intent.add_flags (env : Env) (flags : Flags) (i : Intent) :
    Ran Intent × List FCall :=
  i.and_then (fun inner =>
    obind (resolveFlags env flags.iter_names 0) (fun jflags =>
    obind (jniCallMethod env inner.object "addFlags"
            "(I)Landroid/content/Intent;" [.int jflags])
      (fun _ => (.ok inner, []))))

/-- Models `Intent::add_category`: resolve the category constant and append it via
`addCategory`. -/
def Intent.add_category (env : Env) (category : String) (i : Intent) :
    Ran Intent × List FCall :=
  i.and_then (fun inner =>
    obind (get_static_field_val env category "Ljava/lang/String;") (fun jcategory =>
    obind (jniCallMethod env inner.object "addCategory"
            "(Ljava/lang/String;)Landroid/content/Intent;" [jcategory])
      (fun _ => (.ok inner, []))))

/-- The `ndk_context::AndroidContext` data: the raw activity pointer, the raw
JavaVM pointer (`none` models a null pointer), and whether thread attachment
succeeds. -/
structure AndroidCtx where
  context : Option Nat
  vm : Option Nat
  attachOk : Bool
deriving DecidableEq, Repr

/-- Models `ndk_context::android_context()`: panics when the global context was
never initialized. -/
def android_context (g : Option AndroidCtx) : Ran AndroidCtx :=
  match g with
  | none => .panic
  | some cx => .ret cx

/-- Models `Intent::start_activity`: read the global context, then call
`startActivity` on the activity with the message; an already-failed chain
returns its error untouched. -/
def Intent.start_activity (g : Option AndroidCtx) (env : Env) (i : Intent) :
    Ran (Except Error Unit) × List FCall :=
  match g with
  | none => (.panic, [])
  | some cx =>
    match i.inner with
    | .error e => (.ret (.error e), [])
    | .ok inner =>
      match jniCallMethod env cx.context "startActivity"
              "(Landroid/content/Intent;)V" [.obj inner.object] with
      | (.ok _, t) => (.ret (.ok ()), t)
      | (.err e, t) => (.ret (.error e), t)
      | (.panic, t) => (.panic, t)

/-- Models `Intent::start_activity_for_result`: like `start_activity` but passing
the caller's correlation `request_code`. -/
def Intent.start_activity_for_result (g : Option AndroidCtx) (env : Env)
    (request_code : Int) (i : Intent) : Ran (Except Error Unit) × List FCall :=
  match g with
  | none => (.panic, [])
  | some cx =>
    match i.inner with
    | .error e => (.ret (.error e), [])
    | .ok inner =>
      match jniCallMethod env cx.context "startActivityForResult"
              "(Landroid/content/Intent;I)V" [.obj inner.object, .int request_code] with
      | (.ok _, t) => (.ret (.ok ()), t)
      | (.err e, t) => (.ret (.error e), t)
      | (.panic, t) => (.panic, t)

/-- The completion record returned by `Intent::get_result`: the Rust struct
has `request_code: i32`, `result_code: i32` and a plain (non-optional)
`data: Intent`. -/
structure CompletedIntent where
  request_code : Int
  result_code : Int
  data : Intent
deriving DecidableEq

/-- Models `Intent::get_result`: call `getNextIntentResult` on the activity, read
the record's fields, return `Ok(None)` on a null data payload and
`Ok(Some(..))` otherwise; the `.l().unwrap()` / `.i().unwrap()` conversion
sites panic on ill-typed responses. -/
def Intent.get_result (g : Option AndroidCtx) (env : Env) (i : Intent) :
    Ran (Except Error (Option CompletedIntent)) × List FCall :=
  match g with
  | none => (.panic, [])
  | some cx =>
    match i.inner with
    | .error e => (.ret (.error e), [])
    | .ok _inner =>
      let r :=
        obind (jniCallMethod env cx.context "getNextIntentResult"
                "(V)Lcom/example/libnumistracker/RustNativeIntentResult;" [])
          (fun jobjv =>
          match jobjv with
          | .int _ => (.panic, [])
          | .obj jobj =>
            obind (jniGetField env jobj "requestCode" "I") (fun jreq_code =>
            obind (jniGetField env jobj "resultCode" "I") (fun jres_code =>
            obind (jniGetField env jobj "data" "Landroid/content/Intent;") (fun jdata =>
            match jdata with
            | .int _ => (.panic, [])
            | .obj jdata_obj =>
              match jdata_obj with
              | none => (.ok none, [])
              | some d =>
                match jreq_code, jres_code with
                | .int request_code, .int result_code =>
                  (.ok (some { request_code := request_code,
                               result_code := result_code,
                               data := Intent.from_object (some d) }), [])
                | _, _ => (.panic, [])))))
      match r with
      | (.ok v, t) => (.ret (.ok v), t)
      | (.err e, t) => (.ret (.error e), t)
      | (.panic, t) => (.panic, t)

/-- The `IntentEnv` of `lib.rs`: the android context plus the (non-null)
JavaVM handle. -/
structure IntentEnv where
  cx : AndroidCtx
  vm : Nat
deriving DecidableEq, Repr

/-- Models `IntentEnv::new`: reads the global context (panics when uninitialized)
and unwraps `JavaVM::from_raw` (panics when the VM pointer is null); on
success it returns the handle — the Rust signature returns `Self`, never an
error value. -/
def IntentEnv.new (g : Option AndroidCtx) : Ran IntentEnv :=
  match g with
  | none => .panic
  | some cx =>
    match cx.vm with
    | none => .panic
    | some v => .ret { cx := cx, vm := v }

/-- Models `IntentEnv::get_env`: unwraps `attach_current_thread`; a failed
attachment panics, a successful one yields the scoped accessor. -/
def IntentEnv.get_env (e : IntentEnv) : Ran Unit :=
  if e.cx.attachOk then .ret () else .panic

/-- One non-terminal builder operation, for chain-level statements. -/
inductive BOp
  | with_extra (key value : String)
  | with_type (type_name : String)
  | add_flags (flags : Flags)
  | add_category (category : String)
  | into_chooser
  | into_chooser_with_title (title : Option String)
deriving DecidableEq, Repr

/-- Dispatch one builder operation on the current chain state. -/
def applyOp (env : Env) (op : BOp) (i : Intent) : Ran Intent × List FCall :=
  match op with
  | .with_extra k v => i.with_extra env k v
  | .with_type t => i.with_type env t
  | .add_flags f => i.add_flags env f
  | .add_category c => i.add_category env c
  | .into_chooser => i.into_chooser env
  | .into_chooser_with_title t => i.into_chooser_with_title env t

/-- Run a sequence of builder operations, concatenating their traces; a
panic aborts the chain. -/
def runChain (env : Env) (ops : List BOp) (i : Intent) : Ran Intent × List FCall :=
  match ops with
  | [] => (.ret i, [])
  | op :: rest =>
    match applyOp env op i with
    | (.ret i', t) =>
      match runChain env rest i' with
      | (r, t') => (r, t ++ t')
    | (.panic, t) => (.panic, t)

/-- Is this foreign call a mutation of a message object (an instance method
call)? -/
def FCall.isMutation : FCall → Bool
  | .callMethod _ _ _ _ => true
  | _ => false

/-- Is this foreign call an object allocation (`new_object`)? -/
def FCall.isAllocation : FCall → Bool
  | .newObject _ _ _ => true
  | _ => false

/-- Is this foreign call a static-field resolution? -/
def FCall.isResolution : FCall → Bool
  | .getStaticField _ _ _ => true
  | _ => false

/-- The receivers of the instance-method calls of a trace. -/
def callReceivers (t : List FCall) : List Nat :=
  t.filterMap (fun c =>
    match c with
    | .callMethod o _ _ _ => some o
    | _ => none)

/-- A concrete initialized android context for concrete runs. -/
def ctx0 : AndroidCtx := { context := some 50, vm := some 60, attachOk := true }

/-- A concrete all-succeeding mock environment: the flag constant resolves
to `1`, `getNextIntentResult` yields record object `100`, whose fields are
`requestCode = 7`, `resultCode = 9` and a non-null `data` object `11`. -/
def baseEnv : Env where
  findClass := fun _ => .ok 1
  newString := fun _ => .ok 2
  getStaticField := fun _ f _ =>
    if f = "FLAG_GRANT_READ_URI_PERMISSION" then .ok (.int 1) else .ok (.obj (some 3))
  newObject := fun _ _ _ => .ok 4
  callMethod := fun _ _ _ _ => .ok (.obj (some 100))
  callStaticMethod := fun _ _ _ _ => .ok (.obj (some 5))
  getField := fun _ f _ =>
    if f = "data" then .ok (.obj (some 11))
    else if f = "requestCode" then .ok (.int 7) else .ok (.int 9)

/-- Like `baseEnv` but the completion record carries a null `data` payload. -/
def envNullData : Env :=
  { baseEnv with
    getField := fun _ f _ =>
      if f = "data" then .ok (.obj none)
      else if f = "requestCode" then .ok (.int 7) else .ok (.int 9) }

/-- Like `baseEnv` but the host reports no pending completion record at all:
`getNextIntentResult` yields the null reference. -/
def envNoRecord : Env :=
  { baseEnv with callMethod := fun _ _ _ _ => .ok (.obj none) }

/-- Like `baseEnv` but the static flag constant is unresolvable. -/
def envFlagFail : Env :=
  { baseEnv with getStaticField := fun _ _ _ => .error (.javaThrown "NoSuchFieldError") }

/-- Like `baseEnv` but `Uri.parse` rejects the input as malformed. -/
def envParseFail : Env :=
  { baseEnv with
    callStaticMethod := fun _ m _ _ =>
      if m = "parse" then .error (.javaThrown "URISyntaxException")
      else .ok (.obj (some 5)) }

/-- A concrete builder state holding the foreign handle `10`. -/
def intent0 : Intent := Intent.from_object (some 10)

theorem obind_ok {α β : Type} (a : α) (t : List FCall)
    (k : α → Out β × List FCall) : obind (.ok a, t) k = ((k a).1, t ++ (k a).2) := rfl

theorem obind_err {α β : Type} (e : Error) (t : List FCall)
    (k : α → Out β × List FCall) : obind (.err e, t) k = (.err e, t) := rfl

theorem obind_panic {α β : Type} (t : List FCall)
    (k : α → Out β × List FCall) : obind (Out.panic, t) k = (.panic, t) := rfl

theorem ofExcept_ok {α : Type} (a : α) : ofExcept (.ok a) = (.ok a : Out α) := rfl

theorem ofExcept_err {α : Type} (e : Error) :
    ofExcept (.error e) = (.err e : Out α) := rfl

/-- Any builder operation on an already-failed chain is the identity with an
empty foreign-call trace. -/
theorem applyOp_error (env : Env) (op : BOp) (e : Error) :
    applyOp env op { inner := .error e } = (.ret { inner := .error e }, []) := by
  cases op <;> rfl

theorem runChain_error (env : Env) (ops : List BOp) (e : Error) :
    runChain env ops { inner := .error e } = (.ret { inner := .error e }, []) := by
  induction ops with
  | nil => rfl
  | cons op rest ih => simp [runChain, applyOp_error, ih]

/-- C1: once the chain is in error state `E`, every sequence of builder
operations, and every single operation among `with_extra`, `with_type`,
`add_flags`, `add_category`, `into_chooser`, `into_chooser_with_title`,
`start_activity`, `start_activity_for_result` and `get_result`, returns the
same error `E` unchanged and issues no foreign call (empty trace). -/
theorem error_state_short_circuits (env : Env) (e : Error) (ops : List BOp)
    (cx : AndroidCtx) (k v t c : String) (ti : Option String) (f : Flags) (rc : Int) :
    runChain env ops { inner := .error e } = (.ret { inner := .error e }, [])
    ∧ Intent.with_extra env k v { inner := .error e }
        = (.ret { inner := .error e }, [])
    ∧ Intent.with_type env t { inner := .error e }
        = (.ret { inner := .error e }, [])
    ∧ Intent.add_flags env f { inner := .error e }
        = (.ret { inner := .error e }, [])
    ∧ Intent.add_category env c { inner := .error e }
        = (.ret { inner := .error e }, [])
    ∧ Intent.into_chooser env { inner := .error e }
        = (.ret { inner := .error e }, [])
    ∧ Intent.into_chooser_with_title env ti { inner := .error e }
        = (.ret { inner := .error e }, [])
    ∧ Intent.start_activity (some cx) env { inner := .error e }
        = (.ret (.error e), [])
    ∧ Intent.start_activity_for_result (some cx) env rc { inner := .error e }
        = (.ret (.error e), [])
    ∧ Intent.get_result (some cx) env { inner := .error e }
        = (.ret (.error e), []) :=
  ⟨runChain_error env ops e, rfl, rfl, rfl, rfl, rfl, rfl, rfl, rfl, rfl⟩

/-- C7 counterexample: `IntentEnv::new` does not return an environment error
when the runtime is unavailable — with an uninitialized global context, and
likewise with a null VM pointer, it aborts (panic), and its `Ran IntentEnv`
result has no error-carrying form at all. -/
theorem intentenv_new_aborts_counterexample :
    IntentEnv.new none = Ran.panic
    ∧ IntentEnv.new (some { context := some 1, vm := none, attachOk := true })
        = Ran.panic
    ∧ IntentEnv.get_env { cx := { context := some 1, vm := some 2, attachOk := false },
                          vm := 2 } = Ran.panic :=
  ⟨rfl, rfl, rfl⟩

/-- C7 amended: `IntentEnv::new` returns `Self`, not a `Result`; when the
global context is uninitialized or the VM pointer is null it panics
(aborts), and `get_env` panics when thread attachment fails; only the fully
available case returns normally. -/
theorem intentenv_new_amended (g : Option AndroidCtx) :
    (g = none → IntentEnv.new g = .panic)
    ∧ (∀ cx, g = some cx → cx.vm = none → IntentEnv.new g = .panic)
    ∧ (∀ cx vp, g = some cx → cx.vm = some vp →
        IntentEnv.new g = .ret { cx := cx, vm := vp })
    ∧ (∀ ev : IntentEnv, ev.cx.attachOk = false → ev.get_env = .panic)
    ∧ (∀ ev : IntentEnv, ev.cx.attachOk = true → ev.get_env = .ret ()) := by
  refine ⟨?_, ?_, ?_, ?_, ?_⟩
  · rintro rfl; rfl
  · rintro cx rfl hvm; simp [IntentEnv.new, hvm]
  · rintro cx vp rfl hvm; simp [IntentEnv.new, hvm]
  · intro ev h; simp [IntentEnv.get_env, h]
  · intro ev h; simp [IntentEnv.get_env, h]

theorem intentenv_new_amended_witness :
    IntentEnv.new none = .panic
    ∧ IntentEnv.new (some { context := some 1, vm := none, attachOk := true }) = .panic
    ∧ IntentEnv.new (some ctx0) = .ret { cx := ctx0, vm := 60 } :=
  ⟨(intentenv_new_amended none).1 rfl,
   (intentenv_new_amended (some { context := some 1, vm := none, attachOk := true })).2.1
     _ rfl rfl,
   (intentenv_new_amended (some ctx0)).2.2.1 ctx0 60 rfl rfl⟩

theorem iter_names_and_one (b : Nat) :
    (Flags.from_bits_retain b).iter_names
      = (Flags.from_bits_retain (b &&& 1)).iter_names := by
  have h : b % 4294967296 % 2 = b % 2 % 4294967296 % 2 := by omega
  simp [Flags.iter_names, Flags.from_bits_retain, Nat.and_one_is_mod, h]

theorem add_flags_eq_of_iter_names (env : Env) (i : Intent) {f g : Flags}
    (h : f.iter_names = g.iter_names) :
    Intent.add_flags env f i = Intent.add_flags env g i := by
  unfold Intent.add_flags
  simp only [h]

/-- C10: `add_flags` iterates only the named flags of the given set, so bits
with no defined flag name are silently dropped: its behavior on any bit
pattern equals its behavior on the pattern masked to bit 0, and when bit 0
is clear it behaves exactly like the empty flag set (no error, nothing extra
reaches the foreign `addFlags` call). -/
theorem add_flags_ignores_unnamed_bits (b : Nat) (env : Env) (i : Intent) :
    Intent.add_flags env (Flags.from_bits_retain b) i
      = Intent.add_flags env (Flags.from_bits_retain (b &&& 1)) i
    ∧ (b &&& 1 = 0 →
        Intent.add_flags env (Flags.from_bits_retain b) i
          = Intent.add_flags env Flags.empty i) := by
  constructor
  · exact add_flags_eq_of_iter_names env i (iter_names_and_one b)
  · intro hb
    have h1 : (Flags.from_bits_retain b).iter_names = Flags.empty.iter_names := by
      rw [iter_names_and_one b, hb]
      simp [Flags.from_bits_retain, Flags.empty]
    exact add_flags_eq_of_iter_names env i h1

theorem add_flags_ignores_unnamed_bits_witness :
    Intent.add_flags baseEnv (Flags.from_bits_retain 6) intent0
      = Intent.add_flags baseEnv Flags.empty intent0 :=
  (add_flags_ignores_unnamed_bits 6 baseEnv intent0).2 (by decide)

theorem get_static_field_val_no_mutation (env : Env) (f ty : String) :
    (get_static_field_val env f ty).2.filter FCall.isMutation = [] := by
  unfold get_static_field_val jniFindClass
  cases h : env.findClass "android/content/Intent" <;>
    simp [obind, ofExcept, FCall.isMutation]

/-- C8: on an `Ok`-state chain, `add_flags` with the empty set issues exactly
one foreign mutation call, `addFlags` with mask `0`; with
`{GRANT_READ_URI_PERMISSION}` it resolves exactly one foreign constant `c`
and issues the single `addFlags` call with `0 | c`. -/
theorem add_flags_masks (env : Env) (o cls : Nat) (i : Intent) (c : Int) (rv rv2 : JVal)
    (hi : i.inner = .ok { object := some o })
    (hfc : env.findClass "android/content/Intent" = .ok cls)
    (hflag : env.getStaticField cls "FLAG_GRANT_READ_URI_PERMISSION" "I" = .ok (.int c))
    (hm0 : env.callMethod o "addFlags" "(I)Landroid/content/Intent;" [.int 0] = .ok rv)
    (hm1 : env.callMethod o "addFlags" "(I)Landroid/content/Intent;"
             [.int (Int.lor 0 c)] = .ok rv2) :
    Intent.add_flags env Flags.empty i
      = (.ret { inner := .ok { object := some o } },
         [.callMethod o "addFlags" "(I)Landroid/content/Intent;" [.int 0]])
    ∧ Intent.add_flags env Flags.GRANT_READ_URI_PERMISSION i
      = (.ret { inner := .ok { object := some o } },
         [.findClass "android/content/Intent",
          .getStaticField cls "FLAG_GRANT_READ_URI_PERMISSION" "I",
          .callMethod o "addFlags" "(I)Landroid/content/Intent;" [.int (Int.lor 0 c)]])
    ∧ ((Intent.add_flags env Flags.empty i).2.filter FCall.isMutation).length = 1
    ∧ ((Intent.add_flags env Flags.GRANT_READ_URI_PERMISSION i).2.filter
        FCall.isResolution).length = 1 := by
  have e1 : Intent.add_flags env Flags.empty i
      = (.ret { inner := .ok { object := some o } },
         [.callMethod o "addFlags" "(I)Landroid/content/Intent;" [.int 0]]) := by
    simp [Intent.add_flags, Intent.and_then, hi, Flags.empty, Flags.iter_names,
          resolveFlags, obind, jniCallMethod, ofExcept, hm0]
  have e2 : Intent.add_flags env Flags.GRANT_READ_URI_PERMISSION i
      = (.ret { inner := .ok { object := some o } },
         [.findClass "android/content/Intent",
          .getStaticField cls "FLAG_GRANT_READ_URI_PERMISSION" "I",
          .callMethod o "addFlags" "(I)Landroid/content/Intent;"
            [.int (Int.lor 0 c)]]) := by
    simp [Intent.add_flags, Intent.and_then, hi, Flags.GRANT_READ_URI_PERMISSION,
          Flags.iter_names, resolveFlags, get_static_field_val, jniFindClass,
          obind, jniCallMethod, ofExcept, hfc, hflag, hm1]
  refine ⟨e1, e2, ?_, ?_⟩
  · rw [e1]; rfl
  · rw [e2]; rfl

/-- C4: when the (named) set bit of the flag set has no resolvable foreign
constant, `add_flags` fails with the resolution error and issues zero
foreign mutation calls: the mask is fully built before the single `addFlags`
mutation would be issued. -/
theorem add_flags_atomicity (env : Env) (e : Error) (flags : Flags) (i : Intent)
    (inner : Inner) (t0 : List FCall)
    (hi : i.inner = .ok inner)
    (hnames : flags.iter_names = ["GRANT_READ_URI_PERMISSION"])
    (hfail : get_static_field_val env "FLAG_GRANT_READ_URI_PERMISSION" "I"
               = (.err e, t0)) :
    Intent.add_flags env flags i = (.ret { inner := .error e }, t0)
    ∧ (Intent.add_flags env flags i).2.filter FCall.isMutation = [] := by
  have key : Intent.add_flags env flags i = (.ret { inner := .error e }, t0) := by
    simp [Intent.add_flags, Intent.and_then, hi, hnames, resolveFlags, obind, hfail]
  have ht : t0 = (get_static_field_val env "FLAG_GRANT_READ_URI_PERMISSION" "I").2 := by
    rw [hfail]
  refine ⟨key, ?_⟩
  rw [key, ht]
  exact get_static_field_val_no_mutation env "FLAG_GRANT_READ_URI_PERMISSION" "I"

theorem add_flags_atomicity_witness :
    Intent.add_flags envFlagFail Flags.GRANT_READ_URI_PERMISSION intent0
      = (.ret { inner := .error (.javaThrown "NoSuchFieldError") },
         [.findClass "android/content/Intent",
          .getStaticField 1 "FLAG_GRANT_READ_URI_PERMISSION" "I"])
    ∧ (Intent.add_flags envFlagFail Flags.GRANT_READ_URI_PERMISSION intent0).2.filter
        FCall.isMutation = [] :=
  add_flags_atomicity envFlagFail (.javaThrown "NoSuchFieldError")
    Flags.GRANT_READ_URI_PERMISSION intent0 { object := some 10 }
    [.findClass "android/content/Intent",
     .getStaticField 1 "FLAG_GRANT_READ_URI_PERMISSION" "I"]
    rfl (by decide) rfl

theorem add_flags_masks_witness :
    Intent.add_flags baseEnv Flags.empty intent0
      = (.ret { inner := .ok { object := some 10 } },
         [.callMethod 10 "addFlags" "(I)Landroid/content/Intent;" [.int 0]])
    ∧ Intent.add_flags baseEnv Flags.GRANT_READ_URI_PERMISSION intent0
      = (.ret { inner := .ok { object := some 10 } },
         [.findClass "android/content/Intent",
          .getStaticField 1 "FLAG_GRANT_READ_URI_PERMISSION" "I",
          .callMethod 10 "addFlags" "(I)Landroid/content/Intent;"
            [.int (Int.lor 0 1)]])
    ∧ ((Intent.add_flags baseEnv Flags.empty intent0).2.filter
        FCall.isMutation).length = 1
    ∧ ((Intent.add_flags baseEnv Flags.GRANT_READ_URI_PERMISSION intent0).2.filter
        FCall.isResolution).length = 1 :=
  add_flags_masks baseEnv 10 1 intent0 1 (.obj (some 100)) (.obj (some 100))
    rfl rfl rfl rfl rfl

/-- C5: `new_with_uri` parses the URI strictly before constructing the
message object: when `Uri.parse` rejects the text, the whole construction
fails with that error, its trace is exactly the three pre-allocation calls,
and — for every environment — no allocation call ever occurs without a
previously successful parse. -/
theorem new_with_uri_parse_before_alloc (env : Env) (action uri : String)
    (s uc : Nat) (e : Error)
    (hs : env.newString uri = .ok s)
    (hc : env.findClass "android/net/Uri" = .ok uc)
    (hp : env.callStaticMethod uc "parse" "(Ljava/lang/String;)Landroid/net/Uri;"
            [.obj (some s)] = .error e) :
    Intent.new_with_uri env action uri
      = (.ret { inner := .error e },
         [.newString uri, .findClass "android/net/Uri",
          .callStaticMethod uc "parse" "(Ljava/lang/String;)Landroid/net/Uri;"
            [.obj (some s)]])
    ∧ (Intent.new_with_uri env action uri).2.filter FCall.isAllocation = []
    ∧ ∀ (env2 : Env) (a2 u2 : String),
        (Intent.new_with_uri env2 a2 u2).2.filter FCall.isAllocation ≠ [] →
        ∃ s2 uc2 v, env2.newString u2 = .ok s2
          ∧ env2.findClass "android/net/Uri" = .ok uc2
          ∧ env2.callStaticMethod uc2 "parse" "(Ljava/lang/String;)Landroid/net/Uri;"
              [.obj (some s2)] = .ok v := by
  have key : Intent.new_with_uri env action uri
      = (.ret { inner := .error e },
         [.newString uri, .findClass "android/net/Uri",
          .callStaticMethod uc "parse" "(Ljava/lang/String;)Landroid/net/Uri;"
            [.obj (some s)]]) := by
    simp [Intent.new_with_uri, Intent.from_fn, obind, jniNewString, jniFindClass,
          ofExcept, hs, hc, hp]
  refine ⟨key, by rw [key]; rfl, ?_⟩
  intro env2 a2 u2 hne
  cases h1 : env2.newString u2 with
  | error e1 =>
    exact absurd (by simp [Intent.new_with_uri, Intent.from_fn, obind, jniNewString,
      ofExcept, h1, FCall.isAllocation]) hne
  | ok s2 =>
    cases h2 : env2.findClass "android/net/Uri" with
    | error e2 =>
      exact absurd (by simp [Intent.new_with_uri, Intent.from_fn, obind, jniNewString,
        jniFindClass, ofExcept, h1, h2, FCall.isAllocation]) hne
    | ok uc2 =>
      cases h3 : env2.callStaticMethod uc2 "parse"
          "(Ljava/lang/String;)Landroid/net/Uri;" [.obj (some s2)] with
      | error e3 =>
        exact absurd (by simp [Intent.new_with_uri, Intent.from_fn, obind,
          jniNewString, jniFindClass, ofExcept, h1, h2, h3, FCall.isAllocation]) hne
      | ok v => exact ⟨s2, uc2, v, rfl, rfl, h3⟩

theorem new_with_uri_parse_before_alloc_witness :
    Intent.new_with_uri envParseFail "ACTION_VIEW" "::bad uri::"
      = (.ret { inner := .error (.javaThrown "URISyntaxException") },
         [.newString "::bad uri::", .findClass "android/net/Uri",
          .callStaticMethod 1 "parse" "(Ljava/lang/String;)Landroid/net/Uri;"
            [.obj (some 2)]])
    ∧ (Intent.new_with_uri envParseFail "ACTION_VIEW" "::bad uri::").2.filter
        FCall.isAllocation = []
    ∧ ∀ (env2 : Env) (a2 u2 : String),
        (Intent.new_with_uri env2 a2 u2).2.filter FCall.isAllocation ≠ [] →
        ∃ s2 uc2 v, env2.newString u2 = .ok s2
          ∧ env2.findClass "android/net/Uri" = .ok uc2
          ∧ env2.callStaticMethod uc2 "parse" "(Ljava/lang/String;)Landroid/net/Uri;"
              [.obj (some s2)] = .ok v :=
  new_with_uri_parse_before_alloc envParseFail "ACTION_VIEW" "::bad uri::" 2 1
    (.javaThrown "URISyntaxException") rfl rfl rfl

/-- C2: on an `Ok`-state chain, `get_result` yields three mutually
distinguishable outcomes: with no completion record present (the host call
yields the null reference) it fails with the `NullPtr` field-access error —
never `Ok(None)` and never `Ok(Some ..)`; with a record whose data payload
is null it returns `Ok(None)`; with a record carrying non-null data it
returns `Ok(Some ..)` with the record's codes. -/
theorem get_result_three_outcomes (env : Env) (cx : AndroidCtx) (i : Intent)
    (inner : Inner) (a : Nat) (recObj : Option Nat) (qc rc : Int)
    (dataObj : Option Nat)
    (hi : i.inner = .ok inner)
    (ha : cx.context = some a)
    (hcall : env.callMethod a "getNextIntentResult"
        "(V)Lcom/example/libnumistracker/RustNativeIntentResult;" []
        = .ok (.obj recObj))
    (hq : ∀ rid, recObj = some rid →
        env.getField rid "requestCode" "I" = .ok (.int qc))
    (hr : ∀ rid, recObj = some rid →
        env.getField rid "resultCode" "I" = .ok (.int rc))
    (hd : ∀ rid, recObj = some rid →
        env.getField rid "data" "Landroid/content/Intent;" = .ok (.obj dataObj)) :
    (recObj = none →
       (Intent.get_result (some cx) env i).1
           = .ret (.error (.nullPtr "get_object_class"))
       ∧ (Intent.get_result (some cx) env i).1 ≠ .ret (.ok none)
       ∧ ∀ r, (Intent.get_result (some cx) env i).1 ≠ .ret (.ok (some r)))
    ∧ (∀ rid, recObj = some rid → dataObj = none →
         (Intent.get_result (some cx) env i).1 = .ret (.ok none))
    ∧ (∀ rid d, recObj = some rid → dataObj = some d →
         (Intent.get_result (some cx) env i).1
           = .ret (.ok (some { request_code := qc, result_code := rc,
                               data := Intent.from_object (some d) }))) := by
  refine ⟨?_, ?_, ?_⟩
  · rintro rfl
    have hres : (Intent.get_result (some cx) env i).1
        = .ret (.error (.nullPtr "get_object_class")) := by
      simp [Intent.get_result, hi, ha, jniCallMethod, jniGetField, obind,
            ofExcept, hcall]
    exact ⟨hres, by rw [hres]; simp, fun r => by rw [hres]; simp⟩
  · intro rid hrec hdat
    subst hrec; subst hdat
    have h1 := hq rid rfl
    have h2 := hr rid rfl
    have h3 := hd rid rfl
    simp [Intent.get_result, hi, ha, jniCallMethod, jniGetField, obind,
          ofExcept, hcall, h1, h2, h3]
  · intro rid d hrec hdat
    subst hrec; subst hdat
    have h1 := hq rid rfl
    have h2 := hr rid rfl
    have h3 := hd rid rfl
    simp [Intent.get_result, hi, ha, jniCallMethod, jniGetField, obind,
          ofExcept, hcall, h1, h2, h3]

theorem get_result_three_outcomes_witness :
    (Intent.get_result (some ctx0) envNoRecord intent0).1
        = .ret (.error (.nullPtr "get_object_class"))
    ∧ (Intent.get_result (some ctx0) envNoRecord intent0).1 ≠ .ret (.ok none)
    ∧ (Intent.get_result (some ctx0) envNullData intent0).1 = .ret (.ok none)
    ∧ (Intent.get_result (some ctx0) baseEnv intent0).1
        = .ret (.ok (some { request_code := 7, result_code := 9,
                            data := Intent.from_object (some 11) })) := by
  have hnr := get_result_three_outcomes envNoRecord ctx0 intent0
    { object := some 10 } 50 none 7 9 none rfl rfl rfl
    (fun rid hh => nomatch hh) (fun rid hh => nomatch hh) (fun rid hh => nomatch hh)
  have hnd := get_result_three_outcomes envNullData ctx0 intent0
    { object := some 10 } 50 (some 100) 7 9 none rfl rfl rfl
    (fun rid hh => by cases hh; rfl) (fun rid hh => by cases hh; rfl)
    (fun rid hh => by cases hh; rfl)
  have hok := get_result_three_outcomes baseEnv ctx0 intent0
    { object := some 10 } 50 (some 100) 7 9 (some 11) rfl rfl rfl
    (fun rid hh => by cases hh; rfl) (fun rid hh => by cases hh; rfl)
    (fun rid hh => by cases hh; rfl)
  exact ⟨(hnr.1 rfl).1, (hnr.1 rfl).2.1, hnd.2.1 100 rfl rfl,
         hok.2.2 100 11 rfl rfl⟩

/-- C3 counterexample: the `data` field of a retrieved completion is not
optional — a host completion record that does carry `requestCode = 7` and
`resultCode = 9` but a null data payload is not surfaced as
`Ok(Some {data: None})`; `get_result` returns `Ok(None)` and no record at
all. -/
theorem completed_data_not_optional_counterexample :
    (Intent.get_result (some ctx0) envNullData intent0).1 = .ret (.ok none)
    ∧ (Intent.get_result (some ctx0) envNullData intent0).1
        ≠ .ret (.ok (some { request_code := 7, result_code := 9,
                            data := Intent.from_object none })) := by
  have h : (Intent.get_result (some ctx0) envNullData intent0).1
      = .ret (.ok none) := rfl
  refine ⟨h, ?_⟩
  rw [h]
  simp

/-- C3 amended: the `CompletedIntent` inside `Ok(Some ..)` has shape
`{request_code: i32, result_code: i32, data: Intent}` with `data` always a
present, non-null intent (the null-payload case yields `Ok(None)` with no
record); the codes are read unchanged from the host record's `requestCode`
and `resultCode` fields. -/
theorem completed_intent_amended (env : Env) (cx : AndroidCtx) (i : Intent)
    (r : CompletedIntent) (t : List FCall)
    (h : Intent.get_result (some cx) env i = (.ret (.ok (some r)), t)) :
    ∃ a rid d, cx.context = some a
      ∧ r.data = Intent.from_object (some d)
      ∧ env.callMethod a "getNextIntentResult"
          "(V)Lcom/example/libnumistracker/RustNativeIntentResult;" []
          = .ok (.obj (some rid))
      ∧ env.getField rid "requestCode" "I" = .ok (.int r.request_code)
      ∧ env.getField rid "resultCode" "I" = .ok (.int r.result_code)
      ∧ env.getField rid "data" "Landroid/content/Intent;" = .ok (.obj (some d)) := by
  cases hi : i.inner with
  | error e => simp [Intent.get_result, hi] at h
  | ok inner =>
    cases ha : cx.context with
    | none => simp [Intent.get_result, hi, ha, jniCallMethod, obind] at h
    | some a =>
      cases hm : env.callMethod a "getNextIntentResult"
          "(V)Lcom/example/libnumistracker/RustNativeIntentResult;" [] with
      | error e =>
        simp [Intent.get_result, hi, ha, jniCallMethod, obind, ofExcept, hm] at h
      | ok v =>
        cases v with
        | int m =>
          simp [Intent.get_result, hi, ha, jniCallMethod, obind, ofExcept, hm] at h
        | obj recObj =>
          cases recObj with
          | none =>
            simp [Intent.get_result, hi, ha, jniCallMethod, jniGetField, obind,
                  ofExcept, hm] at h
          | some rid =>
            cases hq : env.getField rid "requestCode" "I" with
            | error e =>
              simp [Intent.get_result, hi, ha, jniCallMethod, jniGetField, obind,
                    ofExcept, hm, hq] at h
            | ok vq =>
              cases hr : env.getField rid "resultCode" "I" with
              | error e =>
                simp [Intent.get_result, hi, ha, jniCallMethod, jniGetField,
                      obind, ofExcept, hm, hq, hr] at h
              | ok vr =>
                cases hd : env.getField rid "data" "Landroid/content/Intent;" with
                | error e =>
                  simp [Intent.get_result, hi, ha, jniCallMethod, jniGetField,
                        obind, ofExcept, hm, hq, hr, hd] at h
                | ok vd =>
                  cases vd with
                  | int m =>
                    simp [Intent.get_result, hi, ha, jniCallMethod, jniGetField,
                          obind, ofExcept, hm, hq, hr, hd] at h
                  | obj dataObj =>
                    cases dataObj with
                    | none =>
                      simp [Intent.get_result, hi, ha, jniCallMethod, jniGetField,
                            obind, ofExcept, hm, hq, hr, hd] at h
                    | some d =>
                      cases vq with
                      | obj oq =>
                        simp [Intent.get_result, hi, ha, jniCallMethod,
                              jniGetField, obind, ofExcept, hm, hq, hr, hd] at h
                      | int nq =>
                        cases vr with
                        | obj our =>
                          simp [Intent.get_result, hi, ha, jniCallMethod,
                                jniGetField, obind, ofExcept, hm, hq, hr, hd] at h
                        | int nr =>
                          have hrr : r = { request_code := nq, result_code := nr,
                                           data := Intent.from_object (some d) } := by
                            simp [Intent.get_result, hi, ha, jniCallMethod,
                                  jniGetField, obind, ofExcept, hm, hq, hr, hd] at h
                            exact h.1.symm
                          refine ⟨a, rid, d, rfl, ?_, hm, ?_, ?_, hd⟩
                          · rw [hrr]
                          · rw [hrr]; exact hq
                          · rw [hrr]; exact hr

theorem completed_intent_amended_witness :
    ∃ a rid d, ctx0.context = some a
      ∧ ({ request_code := 7, result_code := 9,
           data := Intent.from_object (some 11) } : CompletedIntent).data
          = Intent.from_object (some d)
      ∧ baseEnv.callMethod a "getNextIntentResult"
          "(V)Lcom/example/libnumistracker/RustNativeIntentResult;" []
          = .ok (.obj (some rid))
      ∧ baseEnv.getField rid "requestCode" "I"
          = .ok (.int ({ request_code := 7, result_code := 9,
                         data := Intent.from_object (some 11) } :
                        CompletedIntent).request_code)
      ∧ baseEnv.getField rid "resultCode" "I"
          = .ok (.int ({ request_code := 7, result_code := 9,
                         data := Intent.from_object (some 11) } :
                        CompletedIntent).result_code)
      ∧ baseEnv.getField rid "data" "Landroid/content/Intent;"
          = .ok (.obj (some d)) :=
  completed_intent_amended baseEnv ctx0 intent0
    { request_code := 7, result_code := 9, data := Intent.from_object (some 11) }
    [.callMethod 50 "getNextIntentResult"
       "(V)Lcom/example/libnumistracker/RustNativeIntentResult;" [],
     .getField 100 "requestCode" "I",
     .getField 100 "resultCode" "I",
     .getField 100 "data" "Landroid/content/Intent;"]
    rfl

/-- C6: `get_result` is total over foreign-call outcomes: whenever the
environment's responses respect the jni typing discipline (the variant of a
`JValueOwned` follows the requested descriptor), every run returns normally
— failing foreign calls and field accesses surface as a retrieval error to
the caller, never as a panic; in particular a failing host call propagates
its error directly. -/
theorem get_result_total (env : Env) (cx : AndroidCtx) (i : Intent)
    (h1 : ∀ o args v, env.callMethod o "getNextIntentResult"
        "(V)Lcom/example/libnumistracker/RustNativeIntentResult;" args = .ok v →
        ∃ ro, v = .obj ro)
    (h2 : ∀ o v, env.getField o "requestCode" "I" = .ok v → ∃ n, v = .int n)
    (h3 : ∀ o v, env.getField o "resultCode" "I" = .ok v → ∃ n, v = .int n)
    (h4 : ∀ o v, env.getField o "data" "Landroid/content/Intent;" = .ok v →
        ∃ ro, v = .obj ro) :
    (∃ res t, Intent.get_result (some cx) env i = (.ret res, t))
    ∧ ∀ inner a e, i.inner = .ok inner → cx.context = some a →
        env.callMethod a "getNextIntentResult"
          "(V)Lcom/example/libnumistracker/RustNativeIntentResult;" [] = .error e →
        Intent.get_result (some cx) env i
          = (.ret (.error e),
             [.callMethod a "getNextIntentResult"
                "(V)Lcom/example/libnumistracker/RustNativeIntentResult;" []]) := by
  constructor
  · cases hi : i.inner with
    | error e => exact ⟨.error e, [], by simp [Intent.get_result, hi]⟩
    | ok inner =>
      cases ha : cx.context with
      | none =>
        exact ⟨.error (.nullPtr "get_object_class"), [],
          by simp [Intent.get_result, hi, ha, jniCallMethod, obind]⟩
      | some a =>
        cases hm : env.callMethod a "getNextIntentResult"
            "(V)Lcom/example/libnumistracker/RustNativeIntentResult;" [] with
        | error e =>
          refine ⟨.error e,
            [.callMethod a "getNextIntentResult"
              "(V)Lcom/example/libnumistracker/RustNativeIntentResult;" []], ?_⟩
          simp [Intent.get_result, hi, ha, jniCallMethod, obind, ofExcept, hm]
        | ok v =>
          obtain ⟨recObj, rfl⟩ := h1 a [] v hm
          cases recObj with
          | none =>
            refine ⟨.error (.nullPtr "get_object_class"),
              [.callMethod a "getNextIntentResult"
                "(V)Lcom/example/libnumistracker/RustNativeIntentResult;" []], ?_⟩
            simp [Intent.get_result, hi, ha, jniCallMethod, jniGetField, obind,
                  ofExcept, hm]
          | some rid =>
            cases hq : env.getField rid "requestCode" "I" with
            | error e =>
              refine ⟨.error e,
                [.callMethod a "getNextIntentResult"
                  "(V)Lcom/example/libnumistracker/RustNativeIntentResult;" [],
                 .getField rid "requestCode" "I"], ?_⟩
              simp [Intent.get_result, hi, ha, jniCallMethod, jniGetField, obind,
                    ofExcept, hm, hq]
            | ok vq =>
              obtain ⟨nq, rfl⟩ := h2 rid vq hq
              cases hr : env.getField rid "resultCode" "I" with
              | error e =>
                refine ⟨.error e,
                  [.callMethod a "getNextIntentResult"
                    "(V)Lcom/example/libnumistracker/RustNativeIntentResult;" [],
                   .getField rid "requestCode" "I",
                   .getField rid "resultCode" "I"], ?_⟩
                simp [Intent.get_result, hi, ha, jniCallMethod, jniGetField,
                      obind, ofExcept, hm, hq, hr]
              | ok vr =>
                obtain ⟨nr, rfl⟩ := h3 rid vr hr
                cases hd : env.getField rid "data" "Landroid/content/Intent;" with
                | error e =>
                  refine ⟨.error e,
                    [.callMethod a "getNextIntentResult"
                      "(V)Lcom/example/libnumistracker/RustNativeIntentResult;" [],
                     .getField rid "requestCode" "I",
                     .getField rid "resultCode" "I",
                     .getField rid "data" "Landroid/content/Intent;"], ?_⟩
                  simp [Intent.get_result, hi, ha, jniCallMethod, jniGetField,
                        obind, ofExcept, hm, hq, hr, hd]
                | ok vd =>
                  obtain ⟨dataObj, rfl⟩ := h4 rid vd hd
                  cases dataObj with
                  | none =>
                    refine ⟨.ok none,
                      [.callMethod a "getNextIntentResult"
                        "(V)Lcom/example/libnumistracker/RustNativeIntentResult;" [],
                       .getField rid "requestCode" "I",
                       .getField rid "resultCode" "I",
                       .getField rid "data" "Landroid/content/Intent;"], ?_⟩
                    simp [Intent.get_result, hi, ha, jniCallMethod, jniGetField,
                          obind, ofExcept, hm, hq, hr, hd]
                  | some d =>
                    refine ⟨.ok (some { request_code := nq, result_code := nr,
                                        data := Intent.from_object (some d) }),
                      [.callMethod a "getNextIntentResult"
                        "(V)Lcom/example/libnumistracker/RustNativeIntentResult;" [],
                       .getField rid "requestCode" "I",
                       .getField rid "resultCode" "I",
                       .getField rid "data" "Landroid/content/Intent;"], ?_⟩
                    simp [Intent.get_result, hi, ha, jniCallMethod, jniGetField,
                          obind, ofExcept, hm, hq, hr, hd]
  · intro inner a e hi ha hm
    simp [Intent.get_result, hi, ha, jniCallMethod, obind, ofExcept, hm]

theorem get_result_total_witness :
    (∃ res t, Intent.get_result (some ctx0) baseEnv intent0 = (.ret res, t))
    ∧ ∀ inner a e, intent0.inner = .ok inner → ctx0.context = some a →
        baseEnv.callMethod a "getNextIntentResult"
          "(V)Lcom/example/libnumistracker/RustNativeIntentResult;" [] = .error e →
        Intent.get_result (some ctx0) baseEnv intent0
          = (.ret (.error e),
             [.callMethod a "getNextIntentResult"
                "(V)Lcom/example/libnumistracker/RustNativeIntentResult;" []]) :=
  get_result_total baseEnv ctx0 intent0
    (by intro o args v h; simp [baseEnv] at h; exact ⟨some 100, h.symm⟩)
    (by intro o v h; simp [baseEnv] at h; exact ⟨7, h.symm⟩)
    (by intro o v h; simp [baseEnv] at h; exact ⟨9, h.symm⟩)
    (by intro o v h; simp [baseEnv] at h; exact ⟨some 11, h.symm⟩)

theorem callReceivers_append (a b : List FCall) :
    callReceivers (a ++ b) = callReceivers a ++ callReceivers b := by
  simp [callReceivers]

theorem callReceivers_single_call (o : Nat) (m sig : String) (args : List JVal) :
    callReceivers [.callMethod o m sig args] = [o] := rfl

theorem callReceivers_gsfv (env : Env) (f ty : String) :
    callReceivers (get_static_field_val env f ty).2 = [] := by
  unfold get_static_field_val jniFindClass
  cases h : env.findClass "android/content/Intent" <;>
    simp [obind, ofExcept, callReceivers]

theorem callReceivers_resolveFlags (env : Env) (names : List String) (acc : Int) :
    callReceivers (resolveFlags env names acc).2 = [] := by
  induction names generalizing acc with
  | nil => rfl
  | cons n rest ih =>
    unfold resolveFlags
    rcases hg : get_static_field_val env ("FLAG_" ++ n) "I" with ⟨out, tr⟩
    have htr : callReceivers tr = [] := by
      have hh := callReceivers_gsfv env ("FLAG_" ++ n) "I"
      rw [hg] at hh
      exact hh
    cases out with
    | ok v =>
      cases v with
      | int m => simp [obind, hg, callReceivers_append, htr, ih]
      | obj o => simp [obind, hg, callReceivers_append, htr]
    | err e => simp [obind, hg, htr]
    | panic => simp [obind, hg, htr]

/-- Every instance-method call a builder operation issues targets exactly
the handle held in the chain state it was applied to. -/
theorem applyOp_receivers (env : Env) (op : BOp) (i : Intent) (n : Nat)
    (hi : i.inner = .ok { object := some n }) :
    ∀ r ∈ callReceivers (applyOp env op i).2, r = n := by
  cases op with
  | with_extra k v =>
    cases h1 : env.newString k with
    | error e =>
      simp [applyOp, Intent.with_extra, Intent.and_then, hi, obind, jniNewString,
            ofExcept, h1, callReceivers]
    | ok sk =>
      cases h2 : env.newString v with
      | error e =>
        simp [applyOp, Intent.with_extra, Intent.and_then, hi, obind,
              jniNewString, ofExcept, h1, h2, callReceivers]
      | ok sv =>
        cases h3 : env.callMethod n "putExtra"
            "(Ljava/lang/String;Ljava/lang/String;)Landroid/content/Intent;"
            [.obj (some sk), .obj (some sv)] <;>
          simp [applyOp, Intent.with_extra, Intent.and_then, hi, obind,
                jniNewString, jniCallMethod, ofExcept, h1, h2, h3, callReceivers]
  | with_type t =>
    cases h1 : env.newString t with
    | error e =>
      simp [applyOp, Intent.with_type, Intent.and_then, hi, obind, jniNewString,
            ofExcept, h1, callReceivers]
    | ok st =>
      cases h2 : env.callMethod n "setType"
          "(Ljava/lang/String;)Landroid/content/Intent;" [.obj (some st)] <;>
        simp [applyOp, Intent.with_type, Intent.and_then, hi, obind, jniNewString,
              jniCallMethod, ofExcept, h1, h2, callReceivers]
  | add_flags f =>
    rcases hg : resolveFlags env f.iter_names 0 with ⟨out, tr⟩
    have htr : callReceivers tr = [] := by
      have hh := callReceivers_resolveFlags env f.iter_names 0
      rw [hg] at hh
      exact hh
    cases out with
    | ok jf =>
      cases h2 : env.callMethod n "addFlags" "(I)Landroid/content/Intent;"
          [.int jf] <;>
        simp [applyOp, Intent.add_flags, Intent.and_then, hi, obind, hg,
              jniCallMethod, ofExcept, h2, callReceivers_append, htr,
              callReceivers_single_call]
    | err e =>
      simp [applyOp, Intent.add_flags, Intent.and_then, hi, obind, hg, htr]
    | panic =>
      simp [applyOp, Intent.add_flags, Intent.and_then, hi, obind, hg, htr]
  | add_category c =>
    rcases hg : get_static_field_val env c "Ljava/lang/String;" with ⟨out, tr⟩
    have htr : callReceivers tr = [] := by
      have hh := callReceivers_gsfv env c "Ljava/lang/String;"
      rw [hg] at hh
      exact hh
    cases out with
    | ok jc =>
      cases h2 : env.callMethod n "addCategory"
          "(Ljava/lang/String;)Landroid/content/Intent;" [jc] <;>
        simp [applyOp, Intent.add_category, Intent.and_then, hi, obind, hg,
              jniCallMethod, ofExcept, h2, callReceivers_append, htr,
              callReceivers_single_call]
    | err e =>
      simp [applyOp, Intent.add_category, Intent.and_then, hi, obind, hg, htr]
    | panic =>
      simp [applyOp, Intent.add_category, Intent.and_then, hi, obind, hg, htr]
  | into_chooser =>
    cases h1 : env.findClass "android/content/Intent" with
    | error e =>
      simp [applyOp, Intent.into_chooser, Intent.into_chooser_with_title,
            Intent.and_then, hi, obind, jniFindClass, ofExcept, h1, callReceivers]
    | ok cls =>
      cases h2 : env.callStaticMethod cls "createChooser"
          "(Landroid/content/Intent;Ljava/lang/CharSequence;)Landroid/content/Intent;"
          [.obj (some n), .obj none] with
      | error e =>
        simp [applyOp, Intent.into_chooser, Intent.into_chooser_with_title,
              Intent.and_then, hi, obind, jniFindClass, ofExcept, h1, h2,
              callReceivers]
      | ok v =>
        cases v <;>
          simp [applyOp, Intent.into_chooser, Intent.into_chooser_with_title,
                Intent.and_then, hi, obind, jniFindClass, ofExcept, h1, h2,
                callReceivers]
  | into_chooser_with_title ti =>
    cases ti with
    | none =>
      cases h1 : env.findClass "android/content/Intent" with
      | error e =>
        simp [applyOp, Intent.into_chooser_with_title, Intent.and_then, hi,
              obind, jniFindClass, ofExcept, h1, callReceivers]
      | ok cls =>
        cases h2 : env.callStaticMethod cls "createChooser"
            "(Landroid/content/Intent;Ljava/lang/CharSequence;)Landroid/content/Intent;"
            [.obj (some n), .obj none] with
        | error e =>
          simp [applyOp, Intent.into_chooser_with_title, Intent.and_then, hi,
                obind, jniFindClass, ofExcept, h1, h2, callReceivers]
        | ok v =>
          cases v <;>
            simp [applyOp, Intent.into_chooser_with_title, Intent.and_then, hi,
                  obind, jniFindClass, ofExcept, h1, h2, callReceivers]
    | some t =>
      cases h0 : env.newString t with
      | error e =>
        simp [applyOp, Intent.into_chooser_with_title, Intent.and_then, hi,
              obind, ofExcept, Except.map, h0, callReceivers]
      | ok ts =>
        cases h1 : env.findClass "android/content/Intent" with
        | error e =>
          simp [applyOp, Intent.into_chooser_with_title, Intent.and_then, hi,
                obind, jniFindClass, ofExcept, Except.map, h0, h1, callReceivers]
        | ok cls =>
          cases h2 : env.callStaticMethod cls "createChooser"
              "(Landroid/content/Intent;Ljava/lang/CharSequence;)Landroid/content/Intent;"
              [.obj (some n), .obj (some ts)] with
          | error e =>
            simp [applyOp, Intent.into_chooser_with_title, Intent.and_then, hi,
                  obind, jniFindClass, ofExcept, Except.map, h0, h1, h2,
                  callReceivers]
          | ok v =>
            cases v <;>
              simp [applyOp, Intent.into_chooser_with_title, Intent.and_then, hi,
                    obind, jniFindClass, ofExcept, Except.map, h0, h1, h2,
                    callReceivers]

/-- C9: `into_chooser` equals `into_chooser_with_title None` extensionally;
on an `Ok`-state chain both the untitled and the titled variant replace the
builder's handle with the newly created chooser wrapper object, and every
instance-method call of any subsequent builder operation targets exactly the
handle held by the builder it is applied to — so the prior handle, no longer
held, is never referenced again. -/
theorem into_chooser_wraps (env : Env) (i : Intent) (inner : Inner)
    (cls : Nat) (co : Option Nat)
    (hi : i.inner = .ok inner)
    (hc : env.findClass "android/content/Intent" = .ok cls)
    (hcs : env.callStaticMethod cls "createChooser"
        "(Landroid/content/Intent;Ljava/lang/CharSequence;)Landroid/content/Intent;"
        [.obj inner.object, .obj none] = .ok (.obj co)) :
    (∀ (env2 : Env) (j : Intent),
        Intent.into_chooser env2 j = Intent.into_chooser_with_title env2 none j)
    ∧ Intent.into_chooser env i
        = (.ret { inner := .ok { object := co } },
           [.findClass "android/content/Intent",
            .callStaticMethod cls "createChooser"
              "(Landroid/content/Intent;Ljava/lang/CharSequence;)Landroid/content/Intent;"
              [.obj inner.object, .obj none]])
    ∧ (∀ ti ts co2,
        env.newString ti = .ok ts →
        env.callStaticMethod cls "createChooser"
          "(Landroid/content/Intent;Ljava/lang/CharSequence;)Landroid/content/Intent;"
          [.obj inner.object, .obj (some ts)] = .ok (.obj co2) →
        Intent.into_chooser_with_title env (some ti) i
          = (.ret { inner := .ok { object := co2 } },
             [.newString ti, .findClass "android/content/Intent",
              .callStaticMethod cls "createChooser"
                "(Landroid/content/Intent;Ljava/lang/CharSequence;)Landroid/content/Intent;"
                [.obj inner.object, .obj (some ts)]]))
    ∧ ∀ (op : BOp) (env2 : Env) (j : Intent) (n : Nat),
        j.inner = .ok { object := some n } →
        ∀ r ∈ callReceivers (applyOp env2 op j).2, r = n := by
  refine ⟨fun env2 j => rfl, ?_, ?_,
    fun op env2 j n hj => applyOp_receivers env2 op j n hj⟩
  · simp [Intent.into_chooser, Intent.into_chooser_with_title, Intent.and_then,
          hi, obind, jniFindClass, ofExcept, hc, hcs]
  · intro ti ts co2 hts hcs2
    simp [Intent.into_chooser_with_title, Intent.and_then, hi, obind,
          jniFindClass, ofExcept, Except.map, hts, hc, hcs2]

theorem into_chooser_wraps_witness :
    (∀ (env2 : Env) (j : Intent),
        Intent.into_chooser env2 j = Intent.into_chooser_with_title env2 none j)
    ∧ Intent.into_chooser baseEnv intent0
        = (.ret { inner := .ok { object := some 5 } },
           [.findClass "android/content/Intent",
            .callStaticMethod 1 "createChooser"
              "(Landroid/content/Intent;Ljava/lang/CharSequence;)Landroid/content/Intent;"
              [.obj (some 10), .obj none]])
    ∧ (∀ ti ts co2,
        baseEnv.newString ti = .ok ts →
        baseEnv.callStaticMethod 1 "createChooser"
          "(Landroid/content/Intent;Ljava/lang/CharSequence;)Landroid/content/Intent;"
          [.obj (some 10), .obj (some ts)] = .ok (.obj co2) →
        Intent.into_chooser_with_title baseEnv (some ti) intent0
          = (.ret { inner := .ok { object := co2 } },
             [.newString ti, .findClass "android/content/Intent",
              .callStaticMethod 1 "createChooser"
                "(Landroid/content/Intent;Ljava/lang/CharSequence;)Landroid/content/Intent;"
                [.obj (some 10), .obj (some ts)]]))
    ∧ ∀ (op : BOp) (env2 : Env) (j : Intent) (n : Nat),
        j.inner = .ok { object := some n } →
        ∀ r ∈ callReceivers (applyOp env2 op j).2, r = n :=
  into_chooser_wraps baseEnv intent0 { object := some 10 } 1 (some 5) rfl rfl rfl

end AndroidIntent
